import Mathlib

/-!
Shallow embedding of the `usvg-remote-resolvers` crate.

The crate resolves `<image href="...">` references for an SVG toolkit.  Its
core is pure: an image-kind classifier (src/utils.rs), a strategy trait
(`HrefStringResolver`, src/lib.rs), a fallback combinator
(`FallbackResolver`, src/lib.rs) and HTTP-backed strategies
(src/reqwest_blocking.rs, src/reqwest.rs) whose transport we model as an
abstract client function.  Machine bytes are `Nat`s, the opaque
`usvg::Options` context and the parsed `usvg::Tree` are type parameters,
and the external parser `usvg::Tree::from_data` is an abstract
`Except`-valued function parameter.
-/

namespace UsvgRemoteResolvers

/-- The five recognized image kinds (`ImageKindTypes` in src/utils.rs). -/
inductive ImageKindTypes where
  | Jpeg
  | Png
  | Gif
  | Webp
  | Svg
deriving DecidableEq, Repr

/-- Embedding of Rust `str::rsplit_once` on character lists: split at the
last occurrence of `c`, returning the parts before and after it, or `none`
when `c` does not occur.  The recursion prefers a split found in the tail,
so the split point is the rightmost occurrence. -/
def rsplitOnceList (c : Char) : List Char → Option (List Char × List Char)
  | [] => none
  | x :: xs =>
    match rsplitOnceList c xs with
    | some (a, b) => some (x :: a, b)
    | none => if x = c then some ([], xs) else none

/-- Rust `str::rsplit_once` lifted to `String`. -/
def rsplit_once (s : String) (c : Char) : Option (String × String) :=
  (rsplitOnceList c s.data).map fun p => (⟨p.1⟩, ⟨p.2⟩)

/-- `ImageKindTypes::get_image_type` (src/utils.rs lines 12-29): the declared
content type (`content_type.unwrap_or_default()`) is matched against the five
MIME strings first; otherwise the href is split on the last `.` (the `?`
returns `none` when there is no `.`) and the suffix is matched. -/
def ImageKindTypes.get_image_type (content_type : Option String) (href : String) :
    Option ImageKindTypes :=
  match content_type.getD "" with
  | "image/png" => some .Png
  | "image/jpeg" => some .Jpeg
  | "image/webp" => some .Webp
  | "image/gif" => some .Gif
  | "image/svg+xml" => some .Svg
  | _ =>
    match rsplit_once href '.' with
    | none => none
    | some p =>
      match p.2 with
      | "png" => some .Png
      | "jpg" => some .Jpeg
      | "jpeg" => some .Jpeg
      | "webp" => some .Webp
      | "gif" => some .Gif
      | "svg" => some .Svg
      | _ => none

/-- The five MIME associations, in the spec's words (claim C3). -/
def mimeTable : List (String × ImageKindTypes) :=
  [("image/png", .Png), ("image/jpeg", .Jpeg), ("image/webp", .Webp),
   ("image/gif", .Gif), ("image/svg+xml", .Svg)]

/-- The six extension associations, in the spec's words (claim C3):
`jpg` and `jpeg` both map to JPEG. -/
def extTable : List (String × ImageKindTypes) :=
  [("png", .Png), ("jpg", .Jpeg), ("jpeg", .Jpeg), ("webp", .Webp),
   ("gif", .Gif), ("svg", .Svg)]

/-- The classifier as the spec describes it: declared content type wins when
it is exactly one of the five MIME values; otherwise split the href on the
last `.` (nothing when there is no `.`) and look the suffix up
case-sensitively. -/
def classifySpec (content_type : Option String) (href : String) :
    Option ImageKindTypes :=
  match content_type.bind fun s => mimeTable.lookup s with
  | some k => some k
  | none =>
    match rsplit_once href '.' with
    | none => none
    | some p => extTable.lookup p.2

/-- `usvg::ImageKind`: four raw-byte variants plus a parsed-tree variant.
Bytes are `Nat`s; the parsed `usvg::Tree` is the type parameter. -/
inductive ImageKind (Tree : Type) where
  | JPEG (data : List Nat)
  | PNG (data : List Nat)
  | GIF (data : List Nat)
  | WEBP (data : List Nat)
  | SVG (tree : Tree)
deriving DecidableEq

/-- `ImageKindTypes::to_image_kind` (src/utils.rs lines 31-47).  The external
parser `usvg::Tree::from_data` is passed in as `from_data`; the source's
`.ok()?` on its result maps a parse error to `none`. -/
def ImageKindTypes.to_image_kind {Tree Ctx E : Type}
    (from_data : List Nat → Ctx → Except E Tree)
    (t : ImageKindTypes) (vec : List Nat) (options : Ctx) : Option (ImageKind Tree) :=
  match t with
  | .Jpeg => some (.JPEG vec)
  | .Png => some (.PNG vec)
  | .Gif => some (.GIF vec)
  | .Webp => some (.WEBP vec)
  | .Svg =>
    match from_data vec options with
    | .ok tree => some (.SVG tree)
    | .error _ => none

/-- The trait `HrefStringResolver` (src/lib.rs lines 46-90), as a record of
its two required operations.  The context `usvg::Options` and the resolved
`usvg::ImageKind` are opaque to the trait, so they are type parameters. -/
structure HrefStringResolver (Ctx IK : Type) where
  is_target : String → Bool
  get_image_kind : String → Ctx → Option IK

/-- The trait's provided method `into_fn` (src/lib.rs lines 53-64): the
installable callable that checks `is_target` and only then calls
`get_image_kind`. -/
def HrefStringResolver.into_fn {Ctx IK : Type} (r : HrefStringResolver Ctx IK) :
    String → Ctx → Option IK :=
  fun href options => if r.is_target href then r.get_image_kind href options else none

/-- `DefaultResolver`'s trait implementation (src/lib.rs lines 96-102):
`is_target` is constantly true and `get_image_kind` delegates to the host's
`usvg::ImageHrefResolver::default_string_resolver()`, which is external and
therefore a function parameter. -/
def DefaultResolver.toHrefStringResolver {Ctx IK : Type}
    (default_string_resolver : String → Ctx → Option IK) : HrefStringResolver Ctx IK where
  is_target _ := true
  get_image_kind href options := default_string_resolver href options

/-- `DefaultResolver`'s override of `into_fn` (src/lib.rs lines 103-105): it
returns the host's default string resolver directly. -/
def DefaultResolver.into_fn {Ctx IK : Type}
    (default_string_resolver : String → Ctx → Option IK) : String → Ctx → Option IK :=
  default_string_resolver

/-- The struct `FallbackResolver<T, U>` (src/lib.rs lines 108-112). -/
structure FallbackResolver (T U : Type) where
  primary : T
  fallback : U
deriving DecidableEq

/-- `FallbackResolver::new` (src/lib.rs lines 114-118). -/
def FallbackResolver.new {T U : Type} (primary : T) (fallback : U) :
    FallbackResolver T U :=
  { primary := primary, fallback := fallback }

/-- Rust `bool::then`: `b.then(f)` is `some (f ())` when `b` is true and
`none` otherwise; the closure is run only in the true case. -/
def boolThen {A : Type} (b : Bool) (f : Unit → A) : Option A :=
  if b then some (f ()) else none

/-- The trait implementation for `FallbackResolver<T, U>` (src/lib.rs lines
120-140).  The impl uses `T` and `U` only through their trait views, so it is
a function of the two component resolvers' trait views:
`is_target` is the short-circuit `||`; `get_image_kind` is
`primary.is_target(h).then(primary.get).flatten().or_else(fallback side)`. -/
def FallbackResolver.toHrefStringResolver {Ctx IK : Type}
    (p f : HrefStringResolver Ctx IK) : HrefStringResolver Ctx IK where
  is_target href := p.is_target href || f.is_target href
  get_image_kind href options :=
    (boolThen (p.is_target href) fun _ => p.get_image_kind href options).join.orElse
      fun _ => (boolThen (f.is_target href) fun _ => f.get_image_kind href options).join

/-- `impl From<(T, U)> for FallbackResolver<T, U>` (src/lib.rs lines 142-146). -/
def FallbackResolver.ofPair {T U : Type} (t : T × U) : FallbackResolver T U :=
  { primary := t.1, fallback := t.2 }

/-- `impl From<(T, U, V)> for FallbackResolver<T, FallbackResolver<U, V>>`
(src/lib.rs lines 147-154): the fallback component is `(secondary,
tertiary).into()`. -/
def FallbackResolver.ofTriple {T U V : Type} (t : T × U × V) :
    FallbackResolver T (FallbackResolver U V) :=
  { primary := t.1, fallback := FallbackResolver.ofPair (t.2.1, t.2.2) }

/-- The trait view of a two-level `FallbackResolver` whose components are
themselves trait views. -/
def FallbackResolver.sem {Ctx IK : Type}
    (r : FallbackResolver (HrefStringResolver Ctx IK) (HrefStringResolver Ctx IK)) :
    HrefStringResolver Ctx IK :=
  FallbackResolver.toHrefStringResolver r.primary r.fallback

/-- The trait view of a three-way nested `FallbackResolver` (the shape the
triple `From` impl produces): the inner pair's trait view is installed as the
outer fallback. -/
def FallbackResolver.semTriple {Ctx IK : Type}
    (r : FallbackResolver (HrefStringResolver Ctx IK)
      (FallbackResolver (HrefStringResolver Ctx IK) (HrefStringResolver Ctx IK))) :
    HrefStringResolver Ctx IK :=
  FallbackResolver.toHrefStringResolver r.primary (FallbackResolver.sem r.fallback)

/-- Rust `str::starts_with` on string slices: a literal prefix check. -/
def starts_with (s p : String) : Bool :=
  p.data.isPrefixOf s.data

/-- What the resolver code observes of a `reqwest` HTTP response: the status
code, the `Content-Type` header already passed through
`headers().get(CONTENT_TYPE).and_then(to_str().ok())` (so `none` covers both
a missing header and a non-string one), and the body read
(`resp.bytes().ok()`, `none` on a read error).  `reqwest`'s `send` returns
`Ok` for every completed HTTP exchange regardless of status code (including
404); only transport failures (connection/DNS/TLS) are `Err`. -/
structure Response where
  status : Nat
  content_type : Option String
  body : Option (List Nat)
deriving DecidableEq

/-- `BlockingReqwestResolver` (src/reqwest_blocking.rs lines 9-12): holds a
`reqwest::blocking::Client`, modelled by what the resolver does with it —
`client href` is `send().ok()`: `some` response for a completed exchange,
`none` for a transport error. -/
structure BlockingReqwestResolver where
  client : String → Option Response

/-- `BlockingReqwestResolver::is_target` (src/reqwest_blocking.rs lines
21-23). -/
def BlockingReqwestResolver.is_target (_ : BlockingReqwestResolver) (href : String) :
    Bool :=
  starts_with href "https://" || starts_with href "http://"

/-- `ReqwestResolver::is_target` (src/reqwest.rs lines 34-36); the body does
not use `self`. -/
def ReqwestResolver.is_target (href : String) : Bool :=
  starts_with href "https://" || starts_with href "http://"

/-- `BlockingReqwestResolver::get_image_kind` (src/reqwest_blocking.rs lines
24-33): send the GET (`?` on a transport error), read the content type,
classify (`?` on no classification), read the body (`?` on a read error),
materialize.  The status code of a completed response is never read. -/
def BlockingReqwestResolver.get_image_kind {Tree Ctx E : Type}
    (r : BlockingReqwestResolver) (from_data : List Nat → Ctx → Except E Tree)
    (href : String) (options : Ctx) : Option (ImageKind Tree) := do
  let resp ← r.client href
  let content_type := resp.content_type
  let image_type ← ImageKindTypes.get_image_type content_type href
  let body ← resp.body
  image_type.to_image_kind from_data body options

end UsvgRemoteResolvers

namespace UsvgRemoteResolvers

/-- Claim C3: for every optional declared content-type and every href,
`ImageKindTypes::get_image_type` returns the tag of the declared content-type
whenever it exactly equals one of the five MIME values, regardless of the
href; otherwise it splits the href on the last `.` (nothing when no `.`
exists) and matches the suffix case-sensitively against the six extensions,
with `jpg` and `jpeg` both mapping to JPEG and anything else yielding
nothing.  Stated as: the source classifier equals `classifySpec`, the
table-driven definition written from the spec's words. -/
theorem C3_classifier (ct : Option String) (href : String) :
    ImageKindTypes.get_image_type ct href = classifySpec ct href := by
  unfold ImageKindTypes.get_image_type classifySpec
  cases ct with
  | none =>
    simp only [Option.getD, Option.bind]
    split
    · simp_all
    · simp_all
    · simp_all
    · simp_all
    · simp_all
    cases hr : rsplit_once href '.' with
    | none => simp
    | some p =>
      simp only []
      split
      · simp_all [extTable, List.lookup]
      · simp_all [extTable, List.lookup]
      · simp_all [extTable, List.lookup]
      · simp_all [extTable, List.lookup]
      · simp_all [extTable, List.lookup]
      · simp_all [extTable, List.lookup]
      rename_i g1 g2 g3 g4 g5 g6
      simp [extTable, List.lookup, beq_eq_false_iff_ne.mpr g1, beq_eq_false_iff_ne.mpr g2,
        beq_eq_false_iff_ne.mpr g3, beq_eq_false_iff_ne.mpr g4, beq_eq_false_iff_ne.mpr g5,
        beq_eq_false_iff_ne.mpr g6]
  | some s =>
    simp only [Option.getD, Option.bind]
    split
    · simp_all [mimeTable, List.lookup]
    · simp_all [mimeTable, List.lookup]
    · simp_all [mimeTable, List.lookup]
    · simp_all [mimeTable, List.lookup]
    · simp_all [mimeTable, List.lookup]
    rename_i h1 h2 h3 h4 h5
    have hm : mimeTable.lookup s = none := by
      simp [mimeTable, List.lookup, beq_eq_false_iff_ne.mpr h1, beq_eq_false_iff_ne.mpr h2,
        beq_eq_false_iff_ne.mpr h3, beq_eq_false_iff_ne.mpr h4, beq_eq_false_iff_ne.mpr h5]
    simp only [hm]
    cases hr : rsplit_once href '.' with
    | none => simp
    | some p =>
      simp only []
      split
      · simp_all [extTable, List.lookup]
      · simp_all [extTable, List.lookup]
      · simp_all [extTable, List.lookup]
      · simp_all [extTable, List.lookup]
      · simp_all [extTable, List.lookup]
      · simp_all [extTable, List.lookup]
      rename_i g1 g2 g3 g4 g5 g6
      simp [extTable, List.lookup, beq_eq_false_iff_ne.mpr g1, beq_eq_false_iff_ne.mpr g2,
        beq_eq_false_iff_ne.mpr g3, beq_eq_false_iff_ne.mpr g4, beq_eq_false_iff_ne.mpr g5,
        beq_eq_false_iff_ne.mpr g6]

/-- Claim C4: for every byte payload and context,
`ImageKindTypes::to_image_kind` always succeeds for the JPEG, PNG, GIF and
WEBP tags, wrapping exactly the given bytes in the matching variant; for the
SVG tag it returns nothing if and only if parsing the bytes as a nested
document fails, and on a successful parse wraps the parsed document as the
SVG variant. -/
theorem C4_materialize (Tree Ctx E : Type) (from_data : List Nat → Ctx → Except E Tree)
    (vec : List Nat) (options : Ctx) :
    ImageKindTypes.to_image_kind from_data .Jpeg vec options = some (.JPEG vec) ∧
    ImageKindTypes.to_image_kind from_data .Png vec options = some (.PNG vec) ∧
    ImageKindTypes.to_image_kind from_data .Gif vec options = some (.GIF vec) ∧
    ImageKindTypes.to_image_kind from_data .Webp vec options = some (.WEBP vec) ∧
    (ImageKindTypes.to_image_kind from_data .Svg vec options = none ↔
      ∃ e, from_data vec options = .error e) ∧
    (∀ tree, from_data vec options = .ok tree →
      ImageKindTypes.to_image_kind from_data .Svg vec options = some (.SVG tree)) := by
  refine ⟨rfl, rfl, rfl, rfl, ?_, ?_⟩
  · unfold ImageKindTypes.to_image_kind
    cases h : from_data vec options <;> simp [h]
  · intro tree h
    unfold ImageKindTypes.to_image_kind
    simp [h]

/-- Concrete instance of C4: with a parser that succeeds, the SVG tag
materializes to the parsed tree. -/
theorem C4_witness :
    @ImageKindTypes.to_image_kind Unit Unit Unit (fun _ _ => Except.ok ())
      .Svg [1] () = some (.SVG ()) :=
  (C4_materialize Unit Unit Unit (fun _ _ => Except.ok ()) [1] ()).2.2.2.2.2 () rfl

/-- Claim C6: the callable produced by the default implementation of
`HrefStringResolver::into_fn` returns nothing whenever `is_target` is false
for the href, and otherwise returns exactly `get_image_kind`'s result. -/
theorem C6_into_fn (Ctx IK : Type) (r : HrefStringResolver Ctx IK) (href : String)
    (options : Ctx) :
    (r.is_target href = false → r.into_fn href options = none) ∧
    (r.is_target href = true → r.into_fn href options = r.get_image_kind href options) := by
  constructor <;> intro h <;> simp [HrefStringResolver.into_fn, h]

/-- Concrete instance of C6: a resolver that declines every href resolves to
nothing through `into_fn`. -/
theorem C6_witness :
    @HrefStringResolver.into_fn Unit Nat ⟨fun _ => false, fun _ _ => some 0⟩ "h" () = none :=
  (C6_into_fn Unit Nat ⟨fun _ => false, fun _ _ => some 0⟩ "h" ()).1 rfl

/-- Claim C7: the HTTP-backed strategies' `is_target` is true exactly when
the href literally begins with `http://` or `https://` (case-sensitively),
the async resolver's predicate agrees with the blocking one, and in
particular the two URL examples are claimed while the local path and the
data URI are not. -/
theorem C7_http_claims (r : BlockingReqwestResolver) (href : String) :
    (r.is_target href = true ↔
      ("http://".data <+: href.data ∨ "https://".data <+: href.data)) ∧
    ReqwestResolver.is_target href = r.is_target href ∧
    r.is_target "https://x/y.png" = true ∧
    r.is_target "http://x/y.png" = true ∧
    r.is_target "./local.png" = false ∧
    r.is_target "data:image/png;base64,..." = false := by
  refine ⟨?_, rfl, rfl, rfl, rfl, rfl⟩
  simp only [BlockingReqwestResolver.is_target, starts_with, Bool.or_eq_true,
    List.isPrefixOf_iff_prefix]
  exact or_comm

/-- Claim C8: `FallbackResolver::is_target` is true iff the primary claims
the href or the fallback does, as a short-circuiting left-to-right OR: when
the primary claims the href the result is true whatever the fallback's
predicate is. -/
theorem C8_fallback_claims (Ctx IK : Type) (p f : HrefStringResolver Ctx IK)
    (href : String) :
    ((FallbackResolver.toHrefStringResolver p f).is_target href =
      (p.is_target href || f.is_target href)) ∧
    ((FallbackResolver.toHrefStringResolver p f).is_target href = true ↔
      (p.is_target href = true ∨ f.is_target href = true)) ∧
    (p.is_target href = true → ∀ g : String → Bool,
      (FallbackResolver.toHrefStringResolver p ⟨g, f.get_image_kind⟩).is_target href
        = true) := by
  refine ⟨rfl, ?_, ?_⟩
  · simp [FallbackResolver.toHrefStringResolver]
  · intro h g
    simp [FallbackResolver.toHrefStringResolver, h]

/-- Concrete instance of C8: a claiming primary makes the pair claim the
href even when the fallback declines. -/
theorem C8_witness :
    (@FallbackResolver.toHrefStringResolver Unit Nat
      ⟨fun _ => true, fun _ _ => none⟩
      ⟨fun _ => false, fun _ _ => none⟩).is_target "h" = true :=
  (C8_fallback_claims Unit Nat ⟨fun _ => true, fun _ _ => none⟩
    ⟨fun _ => false, fun _ _ => none⟩ "h").2.2 rfl (fun _ => false)

/-- Claim C10: `DefaultResolver`'s overridden `into_fn`, which returns the
host's default string resolver directly, is observationally equal to the
default trait implementation of `into_fn` applied to `DefaultResolver`,
because `is_target` is constantly true and `get_image_kind` delegates to the
same default string resolver. -/
theorem C10_default_into_fn (Ctx IK : Type) (dsr : String → Ctx → Option IK)
    (href : String) (options : Ctx) :
    DefaultResolver.into_fn dsr href options =
      (DefaultResolver.toHrefStringResolver dsr).into_fn href options := by
  simp [DefaultResolver.into_fn, DefaultResolver.toHrefStringResolver,
    HrefStringResolver.into_fn]

/-- Claim C1: `FallbackResolver::get_image_kind` returns the primary's value
whenever the primary claims the href and resolves to a value — and then the
result does not depend on the fallback's resolve function at all (the
extensional reading of "fallback's resolve is never invoked"); when the
primary declines or resolves to nothing, the fallback's result is returned
if the fallback claims the href; when additionally the fallback declines the
result is nothing whatever the fallback's resolve function is; and when
neither claims the href the result is nothing independently of both resolve
functions. -/
theorem C1_fallback_resolve (Ctx IK : Type) (p f : HrefStringResolver Ctx IK)
    (href : String) (options : Ctx) :
    (∀ v : IK, p.is_target href = true → p.get_image_kind href options = some v →
      ∀ g : String → Ctx → Option IK,
        (FallbackResolver.toHrefStringResolver p ⟨f.is_target, g⟩).get_image_kind
          href options = some v) ∧
    ((p.is_target href = false ∨ p.get_image_kind href options = none) →
      f.is_target href = true →
      (FallbackResolver.toHrefStringResolver p f).get_image_kind href options =
        f.get_image_kind href options) ∧
    ((p.is_target href = false ∨ p.get_image_kind href options = none) →
      f.is_target href = false →
      ∀ g : String → Ctx → Option IK,
        (FallbackResolver.toHrefStringResolver p ⟨f.is_target, g⟩).get_image_kind
          href options = none) ∧
    (p.is_target href = false → f.is_target href = false →
      ∀ g1 g2 : String → Ctx → Option IK,
        (FallbackResolver.toHrefStringResolver ⟨p.is_target, g1⟩
          ⟨f.is_target, g2⟩).get_image_kind href options = none) := by
  refine ⟨?_, ?_, ?_, ?_⟩
  · intro v h1 h2 g
    simp [FallbackResolver.toHrefStringResolver, boolThen, h1, h2, Option.orElse]
  · intro h hf
    rcases h with h | h <;>
      cases hp : p.is_target href <;>
        simp [FallbackResolver.toHrefStringResolver, boolThen, h, hf, hp, Option.orElse]
  · intro h hf g
    rcases h with h | h <;>
      cases hp : p.is_target href <;>
        simp [FallbackResolver.toHrefStringResolver, boolThen, h, hf, hp, Option.orElse]
  · intro hp hf g1 g2
    simp [FallbackResolver.toHrefStringResolver, boolThen, hp, hf, Option.orElse]

/-- Concrete instance of C1: both strategies claim the href and resolve, and
the pair returns the primary's value. -/
theorem C1_witness :
    (@FallbackResolver.toHrefStringResolver Unit Nat
      ⟨fun _ => true, fun _ _ => some 1⟩
      ⟨fun _ => true, fun _ _ => some 2⟩).get_image_kind "h" () = some 1 :=
  (C1_fallback_resolve Unit Nat ⟨fun _ => true, fun _ _ => some 1⟩
    ⟨fun _ => true, fun _ _ => some 2⟩ "h" ()).1 1 rfl rfl (fun _ _ => some 2)

/-- Claim C5: the three-way chain constructor (`From<(T, U, V)>`) produces
exactly the right-associative nesting `Fallback(A, Fallback(B, C))`, and its
trait view tries B only when A declines or fails and C only when both A and
B decline or fail: when A claims and resolves, the result is A's value
independently of B's and C's resolve functions; when A declines or fails and
B claims and resolves, the result is B's value independently of C's resolve
function; when A and B both decline or fail and C claims, the result is C's. -/
theorem C5_triple_chain :
    (∀ (T U V : Type) (a : T) (b : U) (c : V),
      FallbackResolver.ofTriple (a, b, c) =
        FallbackResolver.mk a (FallbackResolver.mk b c)) ∧
    (∀ (Ctx IK : Type) (a b c : HrefStringResolver Ctx IK) (href : String) (options : Ctx),
      (FallbackResolver.semTriple (FallbackResolver.ofTriple (a, b, c)) =
        FallbackResolver.toHrefStringResolver a
          (FallbackResolver.toHrefStringResolver b c)) ∧
      (∀ v : IK, a.is_target href = true → a.get_image_kind href options = some v →
        ∀ gb gc : String → Ctx → Option IK,
          (FallbackResolver.semTriple (FallbackResolver.ofTriple
            (a, ⟨b.is_target, gb⟩, ⟨c.is_target, gc⟩))).get_image_kind href options
            = some v) ∧
      (∀ w : IK, (a.is_target href = false ∨ a.get_image_kind href options = none) →
        b.is_target href = true → b.get_image_kind href options = some w →
        ∀ gc : String → Ctx → Option IK,
          (FallbackResolver.semTriple (FallbackResolver.ofTriple
            (a, b, ⟨c.is_target, gc⟩))).get_image_kind href options = some w) ∧
      ((a.is_target href = false ∨ a.get_image_kind href options = none) →
        (b.is_target href = false ∨ b.get_image_kind href options = none) →
        c.is_target href = true →
        (FallbackResolver.semTriple (FallbackResolver.ofTriple
          (a, b, c))).get_image_kind href options =
          c.get_image_kind href options)) := by
  refine ⟨fun T U V a b c => rfl, ?_⟩
  intro Ctx IK a b c href options
  refine ⟨rfl, ?_, ?_, ?_⟩
  · intro v h1 h2 gb gc
    simp [FallbackResolver.semTriple, FallbackResolver.sem, FallbackResolver.ofTriple,
      FallbackResolver.ofPair, FallbackResolver.toHrefStringResolver, boolThen, h1, h2,
      Option.orElse]
  · intro w ha hb hw gc
    rcases ha with h | h <;>
      cases hp : a.is_target href <;>
        simp [FallbackResolver.semTriple, FallbackResolver.sem, FallbackResolver.ofTriple,
          FallbackResolver.ofPair, FallbackResolver.toHrefStringResolver, boolThen, h, hb,
          hw, hp, Option.orElse]
  · intro ha hb hc
    rcases ha with h | h <;> rcases hb with h2 | h2 <;>
      cases hp : a.is_target href <;> cases hq : b.is_target href <;>
        simp [FallbackResolver.semTriple, FallbackResolver.sem, FallbackResolver.ofTriple,
          FallbackResolver.ofPair, FallbackResolver.toHrefStringResolver, boolThen, h, h2,
          hc, hp, hq, Option.orElse]

/-- Concrete instance of C5: A declines, B claims but fails, C succeeds, and
the three-way chain returns C's value. -/
theorem C5_witness :
    (FallbackResolver.semTriple (FallbackResolver.ofTriple
      (⟨fun _ => false, fun _ _ => none⟩, ⟨fun _ => true, fun _ _ => none⟩,
        (⟨fun _ => true, fun _ _ => some 3⟩ : HrefStringResolver Unit Nat)))).get_image_kind
      "h" () = some 3 :=
  (C5_triple_chain.2 Unit Nat ⟨fun _ => false, fun _ _ => none⟩
    ⟨fun _ => true, fun _ _ => none⟩ ⟨fun _ => true, fun _ _ => some 3⟩ "h" ()).2.2.2
    (Or.inl rfl) (Or.inr rfl) rfl

/-- Claim C2 as stated is false on the code: a completed HTTP exchange with
status 404, no content-type header and body bytes `[1, 2, 3]`, fetched for
the href `http://x/y.png`, is classified PNG by the href extension and the
strategy returns the wrapped body — not nothing.  The source applies `.ok()`
only to the transport result and never reads the response's status. -/
theorem C2_counterexample :
    @BlockingReqwestResolver.get_image_kind Unit Unit Unit
      ⟨fun _ => some ⟨404, none, some [1, 2, 3]⟩⟩ (fun _ _ => Except.ok ())
      "http://x/y.png" () = some (ImageKind.PNG [1, 2, 3]) ∧
    @BlockingReqwestResolver.get_image_kind Unit Unit Unit
      ⟨fun _ => some ⟨404, none, some [1, 2, 3]⟩⟩ (fun _ _ => Except.ok ())
      "http://x/y.png" () ≠ none := by
  refine ⟨rfl, ?_⟩
  decide

/-- Claim C2, amended: the blocking HTTP strategy never reads the HTTP
status of a completed response — replacing the status by any other value
does not change the result — and it returns nothing exactly on a transport
failure of the GET, a classification failure, a body-read failure, or (via
materialization) an SVG parse failure; otherwise it returns the materialized
body of the response, success status or not. -/
theorem C2_amended (Tree Ctx E : Type) (r : BlockingReqwestResolver)
    (from_data : List Nat → Ctx → Except E Tree) (href : String) (options : Ctx) :
    (r.client href = none → r.get_image_kind from_data href options = none) ∧
    (∀ st s : Nat, ∀ ct : Option String, ∀ bd : Option (List Nat),
      BlockingReqwestResolver.get_image_kind ⟨fun _ => some ⟨st, ct, bd⟩⟩ from_data
        href options =
      BlockingReqwestResolver.get_image_kind ⟨fun _ => some ⟨s, ct, bd⟩⟩ from_data
        href options) ∧
    (∀ resp : Response, r.client href = some resp →
      ImageKindTypes.get_image_type resp.content_type href = none →
      r.get_image_kind from_data href options = none) ∧
    (∀ resp : Response, r.client href = some resp → resp.body = none →
      r.get_image_kind from_data href options = none) ∧
    (∀ resp : Response, ∀ it : ImageKindTypes, ∀ bd : List Nat,
      r.client href = some resp →
      ImageKindTypes.get_image_type resp.content_type href = some it →
      resp.body = some bd →
      r.get_image_kind from_data href options =
        it.to_image_kind from_data bd options) := by
  refine ⟨?_, ?_, ?_, ?_, ?_⟩
  · intro h
    simp [BlockingReqwestResolver.get_image_kind, h]
  · intro st s ct bd
    simp [BlockingReqwestResolver.get_image_kind]
  · intro resp h hc
    simp [BlockingReqwestResolver.get_image_kind, h, hc]
  · intro resp h hb
    cases hc : ImageKindTypes.get_image_type resp.content_type href <;>
      simp [BlockingReqwestResolver.get_image_kind, h, hb, hc]
  · intro resp it bd h hc hb
    simp [BlockingReqwestResolver.get_image_kind, h, hc, hb]

/-- Concrete instance of the amended C2: a transport failure yields
nothing. -/
theorem C2_amended_witness :
    @BlockingReqwestResolver.get_image_kind Unit Unit Unit ⟨fun _ => none⟩
      (fun _ _ => Except.ok ()) "http://x/y.png" () = none :=
  (C2_amended Unit Unit Unit ⟨fun _ => none⟩ (fun _ _ => Except.ok ())
    "http://x/y.png" ()).1 rfl

end UsvgRemoteResolvers
